import Mathlib

/-!
Shallow embedding of the Decision & Optimization Engine of the
ml-automation repository: the pricing calculator
(`src/core/pricing_calculator.py`), the scoring engine
(`src/core/scoring_engine.py`), the product lifecycle
(`src/core/product_manager.py`), the optimizer (`src/core/optimizer.py`),
the A/B test evaluator (`src/core/ab_testing.py`) and the competitor
analyzer (`src/core/competitor_analyzer.py`).

Python floats are modelled as exact rationals (`ℚ`); a Python division
that would raise `ZeroDivisionError` (caught by the surrounding
`try/except`) is mirrored by an explicit guard on the divisor.
`round(x, 2)` is modelled by `round2`, Python `int()` truncation by
`pyInt`.
-/

/-- Modelled from the spec: the module `config.business_rules` is imported
by every core module (`from config import business_rules`) but is not part
of the repository sources; only `config/settings.py` is present.  Per
§4.1/§8 of the spec the minimum margin is 30, the ideal margin is 40,
commission defaults to 13 (hard-coded in the calculator itself), the score
thresholds are 80/50 (hard-coded in `calculate_and_score`), and IVA, ISR
and the optimizer / A/B thresholds are fixed configuration constants whose
values the spec does not pin; they are kept as fields of this structure. -/
structure BusinessRules where
  IVA_PERCENTAGE : ℚ
  ISR_PERCENTAGE : ℚ
  MIN_MARGIN_PERCENTAGE : ℚ
  IDEAL_MARGIN_PERCENTAGE : ℚ
  AB_TEST_DURATION_DAYS : ℚ
  AB_TEST_MIN_VISITS : ℚ
  AB_TEST_MIN_SALES : ℚ
  PAUSE_NO_SALES_DAYS : ℤ
  PAUSE_MIN_VISITS : ℚ
  PAUSE_MIN_CTR : ℚ
  PRICE_REDUCTION_PERCENTAGE : ℚ
  ADS_MIN_SALES : ℚ
  ADS_MIN_MARGIN : ℚ
  ADS_MIN_CTR : ℚ
  ADS_MIN_ROAS : ℚ
  SCALE_MIN_SALES_7DAYS : ℚ
  SCALE_MIN_CONVERSION : ℚ
  SCALE_MIN_STOCK : ℤ
deriving Repr, DecidableEq

/-- Modelled from the spec: a representative concrete configuration used
for witnesses and counterexamples (margins 30/40 per §4.1/§8; IVA 16 and
ISR 1, the Mexican rates the tax model describes; remaining thresholds
plausible values, none of which the settled claims depend on). -/
def defaultRules : BusinessRules where
  IVA_PERCENTAGE := 16
  ISR_PERCENTAGE := 1
  MIN_MARGIN_PERCENTAGE := 30
  IDEAL_MARGIN_PERCENTAGE := 40
  AB_TEST_DURATION_DAYS := 7
  AB_TEST_MIN_VISITS := 100
  AB_TEST_MIN_SALES := 5
  PAUSE_NO_SALES_DAYS := 14
  PAUSE_MIN_VISITS := 50
  PAUSE_MIN_CTR := 1/2
  PRICE_REDUCTION_PERCENTAGE := 5
  ADS_MIN_SALES := 10
  ADS_MIN_MARGIN := 35
  ADS_MIN_CTR := 2
  ADS_MIN_ROAS := 3
  SCALE_MIN_SALES_7DAYS := 10
  SCALE_MIN_CONVERSION := 2
  SCALE_MIN_STOCK := 20

/-- Python `round(x, 2)` (idealized to exact rounding of the rational). -/
def round2 (x : ℚ) : ℚ := (round (x * 100) : ℤ) / 100

/-- Python `int(x)`: truncation toward zero. -/
def pyInt (x : ℚ) : ℤ := if 0 ≤ x then ⌊x⌋ else ⌈x⌉

/-- The dictionary returned by `calculate_optimal_price`
(`src/core/pricing_calculator.py` lines 51-64). -/
structure PricingResult where
  base_cost : ℚ
  commission_percentage : ℚ
  commission_amount : ℚ
  shipping_cost : ℚ
  iva_percentage : ℚ
  isr_percentage : ℚ
  min_price : ℚ
  min_margin_price : ℚ
  optimal_price : ℚ
  competitive_price : ℚ
  margin_percentage : ℚ
  profit : ℚ
deriving Repr, DecidableEq

/-- `calculate_optimal_price` (`src/core/pricing_calculator.py` lines
14-68).  Each Python division is guarded: a zero divisor raises
`ZeroDivisionError`, which the `except` clause turns into `None`. -/
def calculate_optimal_price (br : BusinessRules) (base_cost : ℚ) :
    Option PricingResult :=
  let commission_percentage : ℚ := 13
  let shipping_cost : ℚ := 0
  let iva_percentage := br.IVA_PERCENTAGE
  let isr_percentage := br.ISR_PERCENTAGE
  let total_cost_percentage := commission_percentage + isr_percentage
  if 1 - total_cost_percentage / 100 = 0 then none else
  let min_price := base_cost / (1 - total_cost_percentage / 100)
  if 1 - (total_cost_percentage + br.MIN_MARGIN_PERCENTAGE) / 100 = 0 then none else
  let min_margin_price :=
    base_cost / (1 - (total_cost_percentage + br.MIN_MARGIN_PERCENTAGE) / 100)
  if 1 - (total_cost_percentage + br.IDEAL_MARGIN_PERCENTAGE) / 100 = 0 then none else
  let ideal_margin_price :=
    base_cost / (1 - (total_cost_percentage + br.IDEAL_MARGIN_PERCENTAGE) / 100)
  let min_price_with_iva := min_price * (1 + iva_percentage / 100)
  let min_margin_price_with_iva := min_margin_price * (1 + iva_percentage / 100)
  let ideal_margin_price_with_iva := ideal_margin_price * (1 + iva_percentage / 100)
  let competitive_price := (min_margin_price_with_iva + ideal_margin_price_with_iva) / 2
  if 1 + iva_percentage / 100 = 0 then none else
  let revenue_without_iva := competitive_price / (1 + iva_percentage / 100)
  let costs := (commission_percentage + isr_percentage) / 100 * revenue_without_iva
                 + shipping_cost
  let profit := revenue_without_iva - base_cost - costs
  if revenue_without_iva = 0 then none else
  let margin_percentage := profit / revenue_without_iva * 100
  some {
    base_cost := round2 base_cost
    commission_percentage := commission_percentage
    commission_amount := round2 costs
    shipping_cost := shipping_cost
    iva_percentage := iva_percentage
    isr_percentage := isr_percentage
    min_price := round2 min_price_with_iva
    min_margin_price := round2 min_margin_price_with_iva
    optimal_price := round2 ideal_margin_price_with_iva
    competitive_price := round2 competitive_price
    margin_percentage := round2 margin_percentage
    profit := round2 profit }

/-- The tax-inclusive minimum-margin price: the `min_margin_price_with_iva`
binding of `calculate_optimal_price` (lines 32 and 39 of the source). -/
def min_margin_price_with_iva (br : BusinessRules) (base_cost : ℚ) : ℚ :=
  base_cost / (1 - (13 + br.ISR_PERCENTAGE + br.MIN_MARGIN_PERCENTAGE) / 100)
    * (1 + br.IVA_PERCENTAGE / 100)

/-- The tax-inclusive ideal-margin price: the `ideal_margin_price_with_iva`
binding of `calculate_optimal_price` (lines 35 and 40 of the source). -/
def ideal_margin_price_with_iva (br : BusinessRules) (base_cost : ℚ) : ℚ :=
  base_cost / (1 - (13 + br.ISR_PERCENTAGE + br.IDEAL_MARGIN_PERCENTAGE) / 100)
    * (1 + br.IVA_PERCENTAGE / 100)

/-- The tax-inclusive price the source's pricing formula assigns to an
arbitrary target margin `m`: `base_cost / (1 - ((commission + ISR + m)/100))`
times `(1 + IVA/100)` (the formula of lines 32/35/39/40 with `m` in place
of the configured margins). -/
def price_for_margin (br : BusinessRules) (base_cost m : ℚ) : ℚ :=
  base_cost / (1 - (13 + br.ISR_PERCENTAGE + m) / 100)
    * (1 + br.IVA_PERCENTAGE / 100)

/-- `calculate_margin` (`src/core/pricing_calculator.py` lines 82-105);
a zero divisor raises and the `except` clause returns `0.0`. -/
def calculate_margin (br : BusinessRules)
    (price base_cost commission_percentage shipping_cost : ℚ) : ℚ :=
  if 1 + br.IVA_PERCENTAGE / 100 = 0 then 0 else
  let price_without_iva := price / (1 + br.IVA_PERCENTAGE / 100)
  let commission := commission_percentage / 100 * price_without_iva
  let isr_amount := br.ISR_PERCENTAGE / 100 * price_without_iva
  let total_costs := base_cost + commission + isr_amount + shipping_cost
  let profit := price_without_iva - total_costs
  if price_without_iva = 0 then 0 else
  round2 (profit / price_without_iva * 100)

/-- The dictionary returned by `calculate_product_score`
(`src/core/scoring_engine.py` lines 69-74); `breakdown` is the `scores`
dict in insertion order, `total_score` the sum of its values. -/
structure ScoreResult where
  total_score : ℤ
  breakdown : List (String × ℤ)
  margin : ℚ
  competition : String
deriving Repr, DecidableEq

/-- The error dictionary returned by `calculate_product_score` when an
exception is raised (`src/core/scoring_engine.py` lines 76-83). -/
def scoreError : ScoreResult :=
  { total_score := 0, breakdown := [], margin := 0, competition := "unknown" }

/-- The margin component of the score (`src/core/scoring_engine.py`
lines 22-32): 40 points at or above the ideal margin, the truncated
linear interpolation between 20 and 40 between the minimum and ideal
margins, 0 below the minimum. -/
def margin_component (br : BusinessRules) (margin : ℚ) : ℤ :=
  if br.IDEAL_MARGIN_PERCENTAGE ≤ margin then 40
  else if br.MIN_MARGIN_PERCENTAGE ≤ margin then
    pyInt (20 + 20 * ((margin - br.MIN_MARGIN_PERCENTAGE) /
      (br.IDEAL_MARGIN_PERCENTAGE - br.MIN_MARGIN_PERCENTAGE)))
  else 0

/-- The price-competitiveness component of the score
(`src/core/scoring_engine.py` lines 44-60). -/
def price_component (competitive_price optimal_price : ℚ) : ℤ :=
  if 0 < competitive_price then
    let price_diff_pct := |competitive_price - optimal_price| / optimal_price * 100
    if price_diff_pct ≤ 5 then 20
    else if price_diff_pct ≤ 10 then 15
    else if price_diff_pct ≤ 15 then 10
    else 5
  else 10

/-- `calculate_product_score` (`src/core/scoring_engine.py` lines 6-83).
The `product` argument is unused by the scoring logic; the function reads
`margin_percentage`, `competitive_price` and `optimal_price` from the
pricing dict (defaulting to 0), which are taken here as arguments.  The
competition level is the hard-coded placeholder `"medium"` (line 36 of the
source, `TODO: Get from competitor analysis`); the trend score is the
hard-coded placeholder 10 (line 64).  The two divisions of the source can
raise (`IDEAL = MIN` in the interpolation, `optimal_price = 0` in the
price-gap), in which case the `except` clause returns the error dict;
both are mirrored by guards in source execution order. -/
def calculate_product_score (br : BusinessRules)
    (margin competitive_price optimal_price : ℚ) : ScoreResult :=
  if ¬ br.IDEAL_MARGIN_PERCENTAGE ≤ margin ∧ br.MIN_MARGIN_PERCENTAGE ≤ margin ∧
      br.IDEAL_MARGIN_PERCENTAGE - br.MIN_MARGIN_PERCENTAGE = 0 then scoreError
  else if 0 < competitive_price ∧ optimal_price = 0 then scoreError
  else
    let margin_score : ℤ := margin_component br margin
    let competition_level : String := "medium"
    let competition_score : ℤ := 15
    let price_score : ℤ := price_component competitive_price optimal_price
    let trend_score : ℤ := 10
    { total_score := margin_score + competition_score + price_score + trend_score
      breakdown := [("margin", margin_score), ("competition", competition_score),
                    ("price", price_score), ("trend", trend_score)]
      margin := margin
      competition := competition_level }

/-- One row of the `listing_metrics` table
(`src/database/models.py` lines 118-136), the fields read by
`ABTestManager._calculate_metrics`. -/
structure ListingMetricsRow where
  visits : ℤ
  sales : ℤ
  revenue : ℚ
deriving Repr, DecidableEq

/-- The per-variant metrics dict built by `ABTestManager._calculate_metrics`
(`src/core/ab_testing.py` lines 150-169). -/
structure VariantMetrics where
  visits : ℚ
  sales : ℚ
  revenue : ℚ
  conversion_rate : ℚ
deriving Repr, DecidableEq

/-- `ABTestManager._calculate_metrics` (`src/core/ab_testing.py` lines
150-169): totals over the listing's metric rows, conversion rate
`sales / visits * 100` rounded to 2 decimals when visits are positive,
otherwise 0. -/
def calculate_metrics (rows : List ListingMetricsRow) : VariantMetrics :=
  let total_visits := (rows.map (·.visits)).sum
  let total_sales := (rows.map (·.sales)).sum
  let total_revenue := (rows.map (·.revenue)).sum
  let conversion_rate :=
    if 0 < total_visits then round2 ((total_sales : ℚ) / (total_visits : ℚ) * 100) else 0
  { visits := (total_visits : ℚ), sales := (total_sales : ℚ),
    revenue := total_revenue, conversion_rate := conversion_rate }

/-- `ABTestManager._determine_winner` (`src/core/ab_testing.py` lines
171-197): cascading comparisons, each requiring a strict 10% relative
advantage, on conversion rate, then sales, then revenue; otherwise tie. -/
def determine_winner (metrics_a metrics_b : VariantMetrics) : String :=
  if metrics_a.conversion_rate > metrics_b.conversion_rate * (11/10) then "A"
  else if metrics_b.conversion_rate > metrics_a.conversion_rate * (11/10) then "B"
  else if metrics_a.sales > metrics_b.sales * (11/10) then "A"
  else if metrics_b.sales > metrics_a.sales * (11/10) then "B"
  else if metrics_a.revenue > metrics_b.revenue * (11/10) then "A"
  else if metrics_b.revenue > metrics_a.revenue * (11/10) then "B"
  else "tie"

/-- Swapping of the A/B winner labels (a tie is fixed). -/
def swapLabel : String → String
  | "A" => "B"
  | "B" => "A"
  | s => s

/-- The mutable fields of an `ABTest` row
(`src/database/models.py` lines 163-183); time is modelled in days as a
rational instant. -/
structure ABTestRow where
  status : String
  winner : Option String
  started_at : ℚ
  ended_at : Option ℚ
  results : Option (VariantMetrics × VariantMetrics × String)
deriving Repr, DecidableEq

/-- The mutable fields of a `Listing` row read and written by
`evaluate_test` (`src/database/models.py` lines 55-89). -/
structure ListingRow where
  status : String
  ended_at : Option ℚ
deriving Repr, DecidableEq

/-- `ABTestManager.evaluate_test` (`src/core/ab_testing.py` lines 74-148)
as a state transformer on the test row and the two variant listings; the
two variants' metric rows stand for the `ListingMetrics` query results and
`now` for `datetime.utcnow()`.  Returns the winner (or `none` when the
evaluation defers) together with the updated rows. -/
def evaluate_test (br : BusinessRules) (now : ℚ) (test : ABTestRow)
    (listing_a listing_b : ListingRow)
    (rows_a rows_b : List ListingMetricsRow) :
    Option String × ABTestRow × ListingRow × ListingRow :=
  if test.status ≠ "running" then (none, test, listing_a, listing_b)
  else if now - test.started_at < br.AB_TEST_DURATION_DAYS then
    (none, test, listing_a, listing_b)
  else
    let metrics_a := calculate_metrics rows_a
    let metrics_b := calculate_metrics rows_b
    if metrics_a.visits < br.AB_TEST_MIN_VISITS ∨
        metrics_b.visits < br.AB_TEST_MIN_VISITS then
      (none, test, listing_a, listing_b)
    else if metrics_a.sales < br.AB_TEST_MIN_SALES ∧
        metrics_b.sales < br.AB_TEST_MIN_SALES then
      (none, test, listing_a, listing_b)
    else
      let winner := determine_winner metrics_a metrics_b
      let test' := { test with
        status := "completed"
        winner := some winner
        ended_at := some now
        results := some (metrics_a, metrics_b, winner) }
      if winner = "A" then
        (some winner, test', listing_a, { listing_b with status := "paused", ended_at := some now })
      else if winner = "B" then
        (some winner, test', { listing_a with status := "paused", ended_at := some now }, listing_b)
      else
        (some winner, test', listing_a, listing_b)

/-- The fields of a `products` row (`src/database/models.py` lines 6-52)
read or written by `calculate_and_score`, `publish_to_ml` and the
optimizer. -/
structure Product where
  status : String
  base_cost : ℚ
  stock : ℤ
  calculated_price : ℚ
  final_price : ℚ
  margin_percentage : ℚ
  ml_commission_percentage : ℚ
  shipping_cost : ℚ
  score : ℤ
  auto_approved : Bool
  ml_item_id : Option String
deriving Repr, DecidableEq

/-- The fields of a `product_metrics` row
(`src/database/models.py` lines 92-115) read by the optimizer;
`last_sale_date` is a rational instant in days, like `now`. -/
structure ProductMetricsRow where
  total_visits : ℤ
  total_sales : ℤ
  ctr : ℚ
  conversion_rate : ℚ
  last_sale_date : Option ℚ
deriving Repr, DecidableEq

/-- `ProductManager.calculate_and_score`
(`src/core/product_manager.py` lines 57-104) as a state transformer on the
product row: on pricing failure it returns `false` with the row unchanged
(the caller's status is untouched); on success it overwrites the pricing
fields, the score, and the status according to the 80/50 thresholds. -/
def calculate_and_score (br : BusinessRules) (product : Product) :
    Bool × Product :=
  match calculate_optimal_price br product.base_cost with
  | none => (false, product)
  | some pricing =>
    let p1 := { product with
      calculated_price := pricing.optimal_price
      final_price := pricing.competitive_price
      margin_percentage := pricing.margin_percentage
      ml_commission_percentage := pricing.commission_percentage
      shipping_cost := pricing.shipping_cost }
    let score_data := calculate_product_score br pricing.margin_percentage
      pricing.competitive_price pricing.optimal_price
    let p2 := { p1 with score := score_data.total_score }
    let p3 :=
      if (80 : ℤ) ≤ p2.score then { p2 with status := "approved", auto_approved := true }
      else if (50 : ℤ) ≤ p2.score then { p2 with status := "needs_approval" }
      else { p2 with status := "rejected" }
    (true, p3)

/-- `ProductManager.publish_to_ml`
(`src/core/product_manager.py` lines 106-171): `remote` is the outcome of
`ml_api.create_item` (the created item id, or `none` on failure).  Only a
successful remote creation sets `ml_item_id` and `status = "published"`;
on failure the row is unchanged (only a failed action is logged). -/
def publish_to_ml (product : Product) (remote : Option String) :
    Option String × Product :=
  match remote with
  | some item_id =>
      (some item_id, { product with ml_item_id := some item_id, status := "published" })
  | none => (none, product)

/-- `PerformanceOptimizer._should_pause`
(`src/core/optimizer.py` lines 66-84); `(utcnow - last_sale_date).days`
is the floor of the day difference. -/
def should_pause (br : BusinessRules) (now : ℚ) (product : Product)
    (metrics : ProductMetricsRow) : Bool :=
  (match metrics.last_sale_date with
    | some d =>
        decide (br.PAUSE_NO_SALES_DAYS ≤ ⌊now - d⌋) &&
        decide ((metrics.total_visits : ℚ) < br.PAUSE_MIN_VISITS)
    | none => false) ||
  (decide (100 < metrics.total_visits) && decide (metrics.ctr < br.PAUSE_MIN_CTR)) ||
  decide (product.margin_percentage < br.MIN_MARGIN_PERCENTAGE)

/-- `PerformanceOptimizer._should_adjust_price`
(`src/core/optimizer.py` lines 86-97). -/
def should_adjust_price (_product : Product) (metrics : ProductMetricsRow) : Bool :=
  (decide (50 < metrics.total_visits) && decide (metrics.ctr < 1)) ||
  (decide (200 < metrics.total_visits) && decide (metrics.conversion_rate < 1))

/-- `PerformanceOptimizer._should_activate_ads`
(`src/core/optimizer.py` lines 99-108). -/
def should_activate_ads (br : BusinessRules) (product : Product)
    (metrics : ProductMetricsRow) : Bool :=
  decide (br.ADS_MIN_SALES ≤ (metrics.total_sales : ℚ)) &&
  decide (br.ADS_MIN_MARGIN ≤ product.margin_percentage) &&
  decide (br.ADS_MIN_CTR ≤ metrics.ctr)

/-- `PerformanceOptimizer._should_pause_ads`
(`src/core/optimizer.py` lines 110-121): the 7-day ROAS is an
unimplemented placeholder fixed at 0, so the predicate is inert. -/
def should_pause_ads (br : BusinessRules) (_product : Product)
    (_metrics : ProductMetricsRow) : Bool :=
  let roas : ℚ := 0
  decide (0 < roas) && decide (roas < br.ADS_MIN_ROAS)

/-- `PerformanceOptimizer._should_scale`
(`src/core/optimizer.py` lines 123-136): the 7-day sales figure is the
placeholder `metrics.total_sales`. -/
def should_scale (br : BusinessRules) (product : Product)
    (metrics : ProductMetricsRow) : Bool :=
  let recent_sales := metrics.total_sales
  decide (br.SCALE_MIN_SALES_7DAYS ≤ (recent_sales : ℚ)) &&
  decide (br.SCALE_MIN_CONVERSION ≤ metrics.conversion_rate) &&
  decide (br.MIN_MARGIN_PERCENTAGE + 5 ≤ product.margin_percentage) &&
  decide (br.SCALE_MIN_STOCK ≤ product.stock)

/-- `PerformanceOptimizer._adjust_price`
(`src/core/optimizer.py` lines 153-190): reduce the final price by the
configured percentage; recompute the margin with `calculate_margin`; if
the new margin falls below the global minimum, abort (no state change,
only a warning is logged), otherwise persist price and margin.  Returns
the updated row and the actions performed. -/
def adjust_price (br : BusinessRules) (product : Product) :
    Product × List String :=
  let new_price := product.final_price * (1 - br.PRICE_REDUCTION_PERCENTAGE / 100)
  let new_margin := calculate_margin br new_price product.base_cost
    product.ml_commission_percentage product.shipping_cost
  if new_margin < br.MIN_MARGIN_PERCENTAGE then (product, [])
  else ({ product with final_price := new_price, margin_percentage := new_margin },
    ["adjust_price"])

/-- `PerformanceOptimizer.optimize_product`
(`src/core/optimizer.py` lines 31-64) as a state transformer returning the
updated product row and the list of actions performed, in order.  A
missing metrics row or a non-published status is a no-op; when the pause
predicate fires the product is paused and the method returns at once
(line 45), so no further predicate is evaluated in that pass; otherwise
the remaining predicates are checked independently in order (the ads and
scale actions are notification-only stubs that leave the row unchanged). -/
def optimize_product (br : BusinessRules) (now : ℚ) (product : Product)
    (metrics : Option ProductMetricsRow) : Product × List String :=
  if product.status ≠ "published" then (product, [])
  else match metrics with
  | none => (product, [])
  | some m =>
    if should_pause br now product m then
      ({ product with status := "paused" }, ["pause"])
    else
      let step1 := if should_adjust_price product m then adjust_price br product
                   else (product, [])
      let acts2 := if should_activate_ads br step1.1 m then ["activate_ads"] else []
      let acts3 := if should_pause_ads br step1.1 m then ["pause_ads"] else []
      let acts4 := if should_scale br step1.1 m then ["scale"] else []
      (step1.1, step1.2 ++ acts2 ++ acts3 ++ acts4)

/-- A marketplace search result item as consumed by
`CompetitorAnalyzer.analyze_competition`
(`src/core/competitor_analyzer.py` lines 36-50): `price` defaults to 0,
`shipping.free_shipping` is a truthy flag. -/
structure MLItem where
  id : String
  title : String
  price : ℚ
  sold_quantity : ℤ
  free_shipping : Bool
deriving Repr, DecidableEq

/-- Python `min` over a non-empty list (0 on the empty list, unreachable
at the call site). -/
def listMin : List ℚ → ℚ
  | [] => 0
  | x :: xs => xs.foldl min x

/-- Python `max` over a non-empty list (0 on the empty list, unreachable
at the call site). -/
def listMax : List ℚ → ℚ
  | [] => 0
  | x :: xs => xs.foldl max x

/-- Python `statistics.mean`. -/
def listMean (l : List ℚ) : ℚ := l.sum / (l.length : ℚ)

/-- Python `statistics.stdev` squared: the sample variance with
denominator `n - 1`; the source guards it behind `len(prices) > 1`. -/
def sampleVariance (l : List ℚ) : ℚ :=
  ((l.map (fun x => (x - listMean l) ^ 2)).sum) / ((l.length : ℚ) - 1)

/-- The summary dict returned by `analyze_competition`
(`src/core/competitor_analyzer.py` lines 90-98); a `some` result is
returned exactly when a `CompetitorAnalysis` snapshot has been persisted
(the only `return None` paths run before `db.add`). -/
structure CompetitionSummary where
  avg_price : ℚ
  min_price : ℚ
  max_price : ℚ
  competition_level : String
  top_competitors : List MLItem
  free_shipping_percentage : ℚ
  should_offer_free_shipping : Bool
deriving Repr, DecidableEq

/-- `CompetitorAnalyzer.analyze_competition`
(`src/core/competitor_analyzer.py` lines 14-102) on an already-fetched
result list (`ml_api.search_items(keyword, limit=20)` returns at most 20
items).  Prices and the free-shipping count are collected over
`items[:10]` only, while the free-shipping percentage divides by the full
result count (line 59).  The source's condition
`variance_pct > 20` with `variance_pct = stdev(prices)/avg*100` is
expressed square-free as `25 * variance > avg^2`, equivalent for the
nonnegative standard deviation and the positive mean arising here;
`top_competitors` keeps the underlying items of the snapshot dicts. -/
def analyze_competition (items : List MLItem) : Option CompetitionSummary :=
  if items = [] then none else
  let top := items.take 10
  let prices := (top.filter (fun i => decide (0 < i.price))).map (·.price)
  let free_shipping_count := (top.filter (·.free_shipping)).length
  if prices = [] then none else
  let avg_price := listMean prices
  let min_price := listMin prices
  let max_price := listMax prices
  let free_shipping_pct := ((free_shipping_count : ℚ) / (items.length : ℚ)) * 100
  let price_variance := if 1 < prices.length then sampleVariance prices else 0
  let high_variance :=
    if 0 < avg_price then decide (25 * price_variance > avg_price ^ 2) else false
  let competition_level :=
    if items.length < 10 then "low"
    else if items.length < 50 ∧ high_variance then "medium"
    else "high"
  some {
    avg_price := round2 avg_price
    min_price := round2 min_price
    max_price := round2 max_price
    competition_level := competition_level
    top_competitors := top
    free_shipping_percentage := round2 free_shipping_pct
    should_offer_free_shipping := decide (free_shipping_pct > 70) }

/-- A published product for the C6 witness: margin 20 is below the
minimum, so the pause predicate fires; visits 300 with CTR 0.4 also fire
the price-adjust predicate. -/
def productC6 : Product :=
  { status := "published", base_cost := 100, stock := 10,
    calculated_price := 252.17, final_price := 229.66,
    margin_percentage := 20, ml_commission_percentage := 13,
    shipping_cost := 0, score := 70, auto_approved := false,
    ml_item_id := some "MLM100" }

/-- Metrics for the C6 witness. -/
def metricsC6 : ProductMetricsRow :=
  { total_visits := 300, total_sales := 0, ctr := 0.4,
    conversion_rate := 0.5, last_sale_date := none }

/-- A running test row for the C5 witness, started at day 0. -/
def testC5 : ABTestRow :=
  { status := "running", winner := none, started_at := 0,
    ended_at := none, results := none }

/-- A published product row with base cost 100, for the C1 counterexample. -/
def productPub : Product :=
  { status := "published", base_cost := 100, stock := 10,
    calculated_price := 0, final_price := 0, margin_percentage := 0,
    ml_commission_percentage := 0, shipping_cost := 0, score := 0,
    auto_approved := false, ml_item_id := some "MLM200" }

/-- A published product whose base cost is 0, so its pricing fails. -/
def productPubZero : Product := { productPub with base_cost := 0 }

/-- The realized margin at the competitive price: the `margin_percentage`
binding of `calculate_optimal_price` (lines 43-49 of the source), prior to
rounding. -/
def realized_margin (br : BusinessRules) (base_cost : ℚ) : ℚ :=
  let competitive_price :=
    (min_margin_price_with_iva br base_cost + ideal_margin_price_with_iva br base_cost) / 2
  let revenue_without_iva := competitive_price / (1 + br.IVA_PERCENTAGE / 100)
  let costs := (13 + br.ISR_PERCENTAGE) / 100 * revenue_without_iva + 0
  let profit := revenue_without_iva - base_cost - costs
  profit / revenue_without_iva * 100

/-- C9's free-shipping percentage as the claim states it, modelled from
the spec's words: the fraction of the full result set (up to 20 items)
that offers free shipping. -/
def free_shipping_percentage_spec (items : List MLItem) : ℚ :=
  ((items.filter (·.free_shipping)).length : ℚ) / (items.length : ℚ) * 100

/-- A 20-item result set in which every item offers free shipping, for
the C9 counterexample. -/
def itemsC9 : List MLItem := List.replicate 20 ⟨"X", "item", 10, 0, true⟩

/-- The summary the analyzer returns on `itemsC9`. -/
def summaryC9 : CompetitionSummary :=
  { avg_price := 10, min_price := 10, max_price := 10,
    competition_level := "high",
    top_competitors := List.replicate 10 ⟨"X", "item", 10, 0, true⟩,
    free_shipping_percentage := 50, should_offer_free_shipping := false }

/-- C6: for every published product on which the pause predicate holds, a
single `optimize_product` pass pauses the product and performs no price
adjustment in that pass (the method returns right after `_pause_product`),
even when the price-adjust predicate also holds. -/
theorem optimize_product_pause_precedence (br : BusinessRules) (now : ℚ)
    (product : Product) (metrics : ProductMetricsRow)
    (hpub : product.status = "published")
    (hpause : should_pause br now product metrics = true)
    (_hadj : should_adjust_price product metrics = true) :
    optimize_product br now product (some metrics)
        = ({ product with status := "paused" }, ["pause"]) ∧
    "adjust_price" ∉ (optimize_product br now product (some metrics)).2 ∧
    (optimize_product br now product (some metrics)).1.final_price
        = product.final_price := by
  have h1 : optimize_product br now product (some metrics)
      = ({ product with status := "paused" }, ["pause"]) := by
    simp [optimize_product, hpub, hpause]
  refine ⟨h1, ?_, ?_⟩ <;> simp [h1]

/-- Witness for C6 at a concrete published product whose pause and
price-adjust predicates both hold. -/
theorem optimize_product_pause_precedence_witness :
    productC6.status = "published" ∧
    should_pause defaultRules 100 productC6 metricsC6 = true ∧
    should_adjust_price productC6 metricsC6 = true ∧
    optimize_product defaultRules 100 productC6 (some metricsC6)
        = ({ productC6 with status := "paused" }, ["pause"]) := by
  have h1 : productC6.status = "published" := rfl
  have h2 : should_pause defaultRules 100 productC6 metricsC6 = true := by
    simp [should_pause, defaultRules, productC6, metricsC6]
    norm_num
  have h3 : should_adjust_price productC6 metricsC6 = true := by
    simp [should_adjust_price, productC6, metricsC6]
    norm_num
  exact ⟨h1, h2, h3,
    (optimize_product_pause_precedence defaultRules 100 productC6 metricsC6 h1 h2 h3).1⟩

/-- C5: a running test whose minimum duration has elapsed defers — no
winner is returned and the test row and both listings are returned
unchanged — whenever either variant's accumulated visits are below the
minimum visit count, or both variants' sales are below the minimum sale
count, regardless of every other metric. -/
theorem evaluate_test_defers (br : BusinessRules) (now : ℚ) (test : ABTestRow)
    (listing_a listing_b : ListingRow) (rows_a rows_b : List ListingMetricsRow)
    (hrun : test.status = "running")
    (hdur : ¬ now - test.started_at < br.AB_TEST_DURATION_DAYS)
    (hgate : (calculate_metrics rows_a).visits < br.AB_TEST_MIN_VISITS ∨
             (calculate_metrics rows_b).visits < br.AB_TEST_MIN_VISITS ∨
             ((calculate_metrics rows_a).sales < br.AB_TEST_MIN_SALES ∧
              (calculate_metrics rows_b).sales < br.AB_TEST_MIN_SALES)) :
    evaluate_test br now test listing_a listing_b rows_a rows_b
      = (none, test, listing_a, listing_b) := by
  simp only [evaluate_test]
  rw [if_neg (by simp [hrun]), if_neg hdur]
  rcases hgate with h | h | h
  · rw [if_pos (Or.inl h)]
  · rw [if_pos (Or.inr h)]
  · by_cases hv : (calculate_metrics rows_a).visits < br.AB_TEST_MIN_VISITS ∨
        (calculate_metrics rows_b).visits < br.AB_TEST_MIN_VISITS
    · rw [if_pos hv]
    · rw [if_neg hv, if_pos h]

/-- Witness for C5: at day 10 (duration 7 elapsed), variant A has only 50
visits (minimum 100) while variant B's metrics are large; evaluation
defers and changes nothing. -/
theorem evaluate_test_defers_witness :
    testC5.status = "running" ∧
    ¬ (10 : ℚ) - testC5.started_at < defaultRules.AB_TEST_DURATION_DAYS ∧
    (calculate_metrics [⟨50, 10, 1000⟩]).visits < defaultRules.AB_TEST_MIN_VISITS ∧
    evaluate_test defaultRules 10 testC5 ⟨"active", none⟩ ⟨"active", none⟩
        [⟨50, 10, 1000⟩] [⟨1000, 500, 50000⟩]
      = (none, testC5, ⟨"active", none⟩, ⟨"active", none⟩) := by
  have h1 : testC5.status = "running" := rfl
  have h2 : ¬ (10 : ℚ) - testC5.started_at < defaultRules.AB_TEST_DURATION_DAYS := by
    simp [testC5, defaultRules]; norm_num
  have h3 : (calculate_metrics [⟨50, 10, 1000⟩]).visits
      < defaultRules.AB_TEST_MIN_VISITS := by
    simp [calculate_metrics, defaultRules]; norm_num
  exact ⟨h1, h2, h3,
    evaluate_test_defers defaultRules 10 testC5 ⟨"active", none⟩ ⟨"active", none⟩
      [⟨50, 10, 1000⟩] [⟨1000, 500, 50000⟩] h1 h2 (Or.inl h3)⟩

/-- C10: on a non-empty result list none of whose first 10 items has a
positive price, `analyze_competition` returns `None` (before any
`CompetitorAnalysis` row is added to the session, so nothing is
persisted). -/
theorem analyze_competition_no_positive_price (items : List MLItem)
    (hne : items ≠ [])
    (hnp : ∀ i ∈ items.take 10, ¬ 0 < i.price) :
    analyze_competition items = none := by
  have hf : (items.take 10).filter (fun i => decide (0 < i.price)) = [] := by
    rw [List.filter_eq_nil_iff]
    intro a ha
    simpa using hnp a ha
  simp [analyze_competition, hf, hne]

/-- Witness for C10: two items, both with price 0. -/
theorem analyze_competition_no_positive_price_witness :
    ([⟨"a", "t", 0, 3, true⟩, ⟨"b", "u", 0, 1, false⟩] : List MLItem) ≠ [] ∧
    analyze_competition [⟨"a", "t", 0, 3, true⟩, ⟨"b", "u", 0, 1, false⟩] = none := by
  refine ⟨by simp, ?_⟩
  exact analyze_competition_no_positive_price _ (by simp)
    (by intro i hi; fin_cases hi <;> norm_num)

/-- C3 (divergence witness): the competition component of
`calculate_product_score` is the hard-coded placeholder value 15 (the
`"medium"` entry of the mapping) and the reported level is `"medium"`,
for every input — the function has no competition-level input at all, so
no change of competition level can change the score. -/
theorem competition_component_hardcoded (br : BusinessRules)
    (margin competitive_price optimal_price : ℚ)
    (hlt : br.MIN_MARGIN_PERCENTAGE < br.IDEAL_MARGIN_PERCENTAGE)
    (hop : ¬ (0 < competitive_price ∧ optimal_price = 0)) :
    (calculate_product_score br margin competitive_price optimal_price).competition
        = "medium" ∧
    ∃ margin_score price_score,
      (calculate_product_score br margin competitive_price optimal_price).breakdown
        = [("margin", margin_score), ("competition", 15),
           ("price", price_score), ("trend", 10)] := by
  have hg : ¬ (¬ br.IDEAL_MARGIN_PERCENTAGE ≤ margin ∧
      br.MIN_MARGIN_PERCENTAGE ≤ margin ∧
      br.IDEAL_MARGIN_PERCENTAGE - br.MIN_MARGIN_PERCENTAGE = 0) := by
    rintro ⟨-, -, h⟩
    exact absurd (by linarith : br.IDEAL_MARGIN_PERCENTAGE
      = br.MIN_MARGIN_PERCENTAGE) (by linarith)
  simp only [calculate_product_score, if_neg hg, if_neg hop]
  exact ⟨trivial, _, _, rfl⟩

/-- Witness for C3's divergence theorem at the concrete pricing values of
a freshly scored product. -/
theorem competition_component_hardcoded_witness :
    defaultRules.MIN_MARGIN_PERCENTAGE < defaultRules.IDEAL_MARGIN_PERCENTAGE ∧
    (calculate_product_score defaultRules 35.49 229.66 252.17).competition
        = "medium" := by
  have h1 : defaultRules.MIN_MARGIN_PERCENTAGE
      < defaultRules.IDEAL_MARGIN_PERCENTAGE := by
    simp [defaultRules]; norm_num
  have h2 : ¬ ((0:ℚ) < 229.66 ∧ (252.17:ℚ) = 0) := by norm_num
  exact ⟨h1,
    (competition_component_hardcoded defaultRules 35.49 229.66 252.17 h1 h2).1⟩

theorem swapLabel_A : swapLabel "A" = "B" := rfl

theorem swapLabel_B : swapLabel "B" = "A" := rfl

theorem swapLabel_tie : swapLabel "tie" = "tie" := rfl

/-- C4: winner determination is symmetric on variant metric records (whose
sales, revenue and conversion rate are the nonnegative aggregates of the
listing metric rows): swapping the two variants' metrics turns an `"A"`
verdict into `"B"`, a `"B"` verdict into `"A"`, and fixes `"tie"`. -/
theorem determine_winner_symmetric (metrics_a metrics_b : VariantMetrics)
    (ha1 : 0 ≤ metrics_a.conversion_rate) (_hb1 : 0 ≤ metrics_b.conversion_rate)
    (ha2 : 0 ≤ metrics_a.sales) (_hb2 : 0 ≤ metrics_b.sales)
    (ha3 : 0 ≤ metrics_a.revenue) (_hb3 : 0 ≤ metrics_b.revenue) :
    determine_winner metrics_b metrics_a
      = swapLabel (determine_winner metrics_a metrics_b) := by
  simp only [determine_winner]
  split_ifs <;>
    first
      | (exfalso; linarith)
      | rw [swapLabel_A]
      | rw [swapLabel_B]
      | rw [swapLabel_tie]

/-- Witness for C4 at the spec's end-to-end example: visits (1000, 1000),
sales (50, 30), conversion rates 5% and 3%; the winner is `"A"` and the
swapped inputs yield `"B"`. -/
theorem determine_winner_symmetric_witness :
    determine_winner (calculate_metrics [⟨1000, 50, 5000⟩])
        (calculate_metrics [⟨1000, 30, 3000⟩]) = "A" ∧
    determine_winner (calculate_metrics [⟨1000, 30, 3000⟩])
        (calculate_metrics [⟨1000, 50, 5000⟩])
      = swapLabel (determine_winner (calculate_metrics [⟨1000, 50, 5000⟩])
          (calculate_metrics [⟨1000, 30, 3000⟩])) := by
  constructor
  · simp only [determine_winner, calculate_metrics, round2, List.map, List.sum]
    norm_num [round_eq]
  · apply determine_winner_symmetric <;>
      simp [calculate_metrics, round2, round_eq]
    all_goals norm_num

/-- C1 counterexample: re-running `calculate_and_score` on the published
product `productPub` succeeds and overwrites its status with
`"needs_approval"` (its score evaluates to 70), so the status does not
stay `"published"`. -/
theorem calculate_and_score_changes_published_status :
    productPub.status = "published" ∧
    (calculate_and_score defaultRules productPub).1 = true ∧
    (calculate_and_score defaultRules productPub).2.status = "needs_approval" := by
  refine ⟨rfl, ?_, ?_⟩
  · simp only [calculate_and_score, calculate_optimal_price,
      calculate_product_score, margin_component, price_component,
      defaultRules, productPub, round2, pyInt]
    norm_num [round_eq]
  · simp only [calculate_and_score, calculate_optimal_price,
      calculate_product_score, margin_component, price_component,
      defaultRules, productPub, round2, pyInt]
    norm_num [round_eq]
    rw [abs_of_nonneg (by norm_num : (0:ℚ) ≤ 2251/100)]
    norm_num

/-- C1 (amended): `calculate_and_score` can leave a product `"published"`
only through its failure no-op — whenever the resulting status is
`"published"` the call returned `false` with the row unchanged; on success
the status is overwritten with `"approved"`, `"needs_approval"` or
`"rejected"` by score.  The `"published"` status itself is set only by
`publish_to_ml` on a successful remote item creation; a failed creation
leaves the row unchanged. -/
theorem calculate_and_score_reclassifies (br : BusinessRules)
    (product : Product) (item_id : String) :
    ((calculate_and_score br product).2.status = "published" →
      calculate_and_score br product = (false, product)) ∧
    (publish_to_ml product (some item_id)).2.status = "published" ∧
    (publish_to_ml product none).2 = product := by
  refine ⟨?_, rfl, rfl⟩
  intro h
  cases hcase : calculate_optimal_price br product.base_cost with
  | none => simp [calculate_and_score, hcase]
  | some pricing =>
    exfalso
    simp only [calculate_and_score, hcase] at h
    split_ifs at h <;> simp_all

/-- Witness for C1's amended theorem: at `productPubZero` the pricing
fails, the product is returned unchanged (still `"published"`), and a
successful remote creation publishes. -/
theorem calculate_and_score_reclassifies_witness :
    (calculate_and_score defaultRules productPubZero).2.status = "published" ∧
    calculate_and_score defaultRules productPubZero = (false, productPubZero) ∧
    (publish_to_ml productPubZero (some "MLM300")).2.status = "published" := by
  have hpre : (calculate_and_score defaultRules productPubZero).2.status
      = "published" := by
    simp only [calculate_and_score, calculate_optimal_price, defaultRules,
      productPubZero, productPub]
    norm_num
  exact ⟨hpre,
    (calculate_and_score_reclassifies defaultRules productPubZero "MLM300").1 hpre,
    (calculate_and_score_reclassifies defaultRules productPubZero "MLM300").2.1⟩

/-- C2 counterexample: a negative base cost is not rejected —
`calculate_optimal_price` returns a result for `base_cost = -100`,
refuting "for every base_cost ≤ 0 it returns None". -/
theorem calculate_optimal_price_negative_cost_result :
    (-100 : ℚ) < 0 ∧ (calculate_optimal_price defaultRules (-100)).isSome = true := by
  constructor
  · norm_num
  · simp only [calculate_optimal_price, defaultRules]
    norm_num

/-- C2 (amended): with the configured margins 30/40 and sane tax
constants (nonnegative IVA and ISR, ISR below 47 so every configured
denominator is positive), `calculate_optimal_price` returns `None`
exactly when `base_cost = 0` — the realized-margin step divides by a zero
revenue; a negative base cost is not rejected and yields a result. -/
theorem calculate_optimal_price_none_iff (br : BusinessRules) (base_cost : ℚ)
    (hiva : 0 ≤ br.IVA_PERCENTAGE) (hisr : 0 ≤ br.ISR_PERCENTAGE)
    (hmin : br.MIN_MARGIN_PERCENTAGE = 30)
    (hideal : br.IDEAL_MARGIN_PERCENTAGE = 40)
    (hisr47 : br.ISR_PERCENTAGE < 47) :
    calculate_optimal_price br base_cost = none ↔ base_cost = 0 := by
  have hD1 : (0:ℚ) < 1 - (13 + br.ISR_PERCENTAGE) / 100 := by linarith
  have hDa : (0:ℚ) < 1 - (13 + br.ISR_PERCENTAGE + 30) / 100 := by linarith
  have hDd : (0:ℚ) < 1 - (13 + br.ISR_PERCENTAGE + 40) / 100 := by linarith
  have hT : (0:ℚ) < 1 + br.IVA_PERCENTAGE / 100 := by linarith
  have hk : (0:ℚ) < (1 / (1 - (13 + br.ISR_PERCENTAGE + 30) / 100)
      + 1 / (1 - (13 + br.ISR_PERCENTAGE + 40) / 100)) / 2 := by positivity
  have hrev : (base_cost / (1 - (13 + br.ISR_PERCENTAGE + 30) / 100)
        * (1 + br.IVA_PERCENTAGE / 100)
      + base_cost / (1 - (13 + br.ISR_PERCENTAGE + 40) / 100)
        * (1 + br.IVA_PERCENTAGE / 100)) / 2 / (1 + br.IVA_PERCENTAGE / 100)
      = base_cost * ((1 / (1 - (13 + br.ISR_PERCENTAGE + 30) / 100)
          + 1 / (1 - (13 + br.ISR_PERCENTAGE + 40) / 100)) / 2) := by
    calc (base_cost / (1 - (13 + br.ISR_PERCENTAGE + 30) / 100)
            * (1 + br.IVA_PERCENTAGE / 100)
          + base_cost / (1 - (13 + br.ISR_PERCENTAGE + 40) / 100)
            * (1 + br.IVA_PERCENTAGE / 100)) / 2 / (1 + br.IVA_PERCENTAGE / 100)
        = base_cost * ((1 / (1 - (13 + br.ISR_PERCENTAGE + 30) / 100)
            + 1 / (1 - (13 + br.ISR_PERCENTAGE + 40) / 100)) / 2)
            * ((1 + br.IVA_PERCENTAGE / 100) / (1 + br.IVA_PERCENTAGE / 100)) := by
          ring
      _ = base_cost * ((1 / (1 - (13 + br.ISR_PERCENTAGE + 30) / 100)
            + 1 / (1 - (13 + br.ISR_PERCENTAGE + 40) / 100)) / 2) := by
          rw [div_self hT.ne', mul_one]
  simp only [calculate_optimal_price, hmin, hideal]
  rw [if_neg hD1.ne', if_neg hDa.ne', if_neg hDd.ne', if_neg hT.ne', hrev]
  constructor
  · intro h
    by_cases hc : base_cost * ((1 / (1 - (13 + br.ISR_PERCENTAGE + 30) / 100)
        + 1 / (1 - (13 + br.ISR_PERCENTAGE + 40) / 100)) / 2) = 0
    · rcases mul_eq_zero.1 hc with h' | h'
      · exact h'
      · exact absurd h' hk.ne'
    · rw [if_neg hc] at h
      exact absurd h (by simp)
  · intro h
    subst h
    simp

/-- Witness for C2's amended theorem: base cost 0 fails, base cost 100
succeeds, under the representative constants. -/
theorem calculate_optimal_price_none_iff_witness :
    calculate_optimal_price defaultRules 0 = none ∧
    ¬ calculate_optimal_price defaultRules 100 = none := by
  constructor
  · exact (calculate_optimal_price_none_iff defaultRules 0
      (by norm_num [defaultRules]) (by norm_num [defaultRules])
      (by norm_num [defaultRules]) (by norm_num [defaultRules])
      (by norm_num [defaultRules])).2 rfl
  · intro h
    have := (calculate_optimal_price_none_iff defaultRules 100
      (by norm_num [defaultRules]) (by norm_num [defaultRules])
      (by norm_num [defaultRules]) (by norm_num [defaultRules])
      (by norm_num [defaultRules])).1 h
    norm_num at this

/-- The revenue-without-IVA binding of `calculate_optimal_price` in closed
form: the tax factor cancels. -/
theorem revenue_without_iva_eq (br : BusinessRules) (b : ℚ)
    (hT : (0:ℚ) < 1 + br.IVA_PERCENTAGE / 100) :
    (b / (1 - (13 + br.ISR_PERCENTAGE + 30) / 100) * (1 + br.IVA_PERCENTAGE / 100)
      + b / (1 - (13 + br.ISR_PERCENTAGE + 40) / 100) * (1 + br.IVA_PERCENTAGE / 100))
      / 2 / (1 + br.IVA_PERCENTAGE / 100)
    = b * ((1 / (1 - (13 + br.ISR_PERCENTAGE + 30) / 100)
        + 1 / (1 - (13 + br.ISR_PERCENTAGE + 40) / 100)) / 2) := by
  calc (b / (1 - (13 + br.ISR_PERCENTAGE + 30) / 100) * (1 + br.IVA_PERCENTAGE / 100)
        + b / (1 - (13 + br.ISR_PERCENTAGE + 40) / 100) * (1 + br.IVA_PERCENTAGE / 100))
        / 2 / (1 + br.IVA_PERCENTAGE / 100)
      = b * ((1 / (1 - (13 + br.ISR_PERCENTAGE + 30) / 100)
          + 1 / (1 - (13 + br.ISR_PERCENTAGE + 40) / 100)) / 2)
          * ((1 + br.IVA_PERCENTAGE / 100) / (1 + br.IVA_PERCENTAGE / 100)) := by
        ring
    _ = b * ((1 / (1 - (13 + br.ISR_PERCENTAGE + 30) / 100)
          + 1 / (1 - (13 + br.ISR_PERCENTAGE + 40) / 100)) / 2) := by
        rw [div_self hT.ne', mul_one]

/-- `round2` is monotone. -/
theorem round2_mono {x y : ℚ} (h : x ≤ y) : round2 x ≤ round2 y := by
  unfold round2
  have h1 : round (x * 100) ≤ round (y * 100) := by
    rw [round_eq, round_eq]
    exact Int.floor_mono (by linarith)
  exact (div_le_div_right (by norm_num)).2 (by exact_mod_cast h1)

theorem round2_30 : round2 30 = 30 := by norm_num [round2, round_eq]

theorem round2_40 : round2 40 = 40 := by norm_num [round2, round_eq]

/-- The realized margin lies strictly between the configured minimum and
ideal margins, for every positive base cost. -/
theorem realized_margin_bounds (br : BusinessRules) (b : ℚ)
    (hb : 0 < b) (hiva : 0 ≤ br.IVA_PERCENTAGE) (hisr : 0 ≤ br.ISR_PERCENTAGE)
    (hmin : br.MIN_MARGIN_PERCENTAGE = 30)
    (hideal : br.IDEAL_MARGIN_PERCENTAGE = 40)
    (hisr47 : br.ISR_PERCENTAGE < 47) :
    30 < realized_margin br b ∧ realized_margin br b < 40 := by
  have hu : (0:ℚ) < 57 - br.ISR_PERCENTAGE := by linarith
  have hv : (0:ℚ) < 47 - br.ISR_PERCENTAGE := by linarith
  have hvu : 47 - br.ISR_PERCENTAGE < 57 - br.ISR_PERCENTAGE := by linarith
  have hDa : (0:ℚ) < 1 - (13 + br.ISR_PERCENTAGE + 30) / 100 := by linarith
  have hDd : (0:ℚ) < 1 - (13 + br.ISR_PERCENTAGE + 40) / 100 := by linarith
  have hT : (0:ℚ) < 1 + br.IVA_PERCENTAGE / 100 := by linarith
  have hk : (0:ℚ) < (1 / (1 - (13 + br.ISR_PERCENTAGE + 30) / 100)
      + 1 / (1 - (13 + br.ISR_PERCENTAGE + 40) / 100)) / 2 := by positivity
  have hrev := revenue_without_iva_eq br b hT
  have hR : (0:ℚ) < b * ((1 / (1 - (13 + br.ISR_PERCENTAGE + 30) / 100)
      + 1 / (1 - (13 + br.ISR_PERCENTAGE + 40) / 100)) / 2) := mul_pos hb hk
  have hpoly : b * ((1 / (1 - (13 + br.ISR_PERCENTAGE + 30) / 100)
        + 1 / (1 - (13 + br.ISR_PERCENTAGE + 40) / 100)) / 2)
        * (57 - br.ISR_PERCENTAGE) * (47 - br.ISR_PERCENTAGE)
      = 50 * b * ((57 - br.ISR_PERCENTAGE) + (47 - br.ISR_PERCENTAGE)) := by
    have e1 : 1 - (13 + br.ISR_PERCENTAGE + 30) / 100
        = (57 - br.ISR_PERCENTAGE) / 100 := by ring
    have e2 : 1 - (13 + br.ISR_PERCENTAGE + 40) / 100
        = (47 - br.ISR_PERCENTAGE) / 100 := by ring
    rw [e1, e2, one_div_div, one_div_div]
    field_simp
    ring
  simp only [realized_margin, min_margin_price_with_iva, ideal_margin_price_with_iva,
    hmin, hideal]
  rw [hrev]
  set R := b * ((1 / (1 - (13 + br.ISR_PERCENTAGE + 30) / 100)
      + 1 / (1 - (13 + br.ISR_PERCENTAGE + 40) / 100)) / 2) with hRdef
  have key1 : 0 < (57 - br.ISR_PERCENTAGE) * R - 100 * b := by
    have h2 : ((57 - br.ISR_PERCENTAGE) * R - 100 * b) * (47 - br.ISR_PERCENTAGE)
        = 50 * b * ((57 - br.ISR_PERCENTAGE) - (47 - br.ISR_PERCENTAGE)) := by
      linear_combination hpoly
    have h3 : 0 < ((57 - br.ISR_PERCENTAGE) * R - 100 * b)
        * (47 - br.ISR_PERCENTAGE) := by
      rw [h2]
      exact mul_pos (by linarith) (by linarith)
    by_contra hcon
    push_neg at hcon
    nlinarith [h3, hv, hcon]
  have key2 : (47 - br.ISR_PERCENTAGE) * R - 100 * b < 0 := by
    have h2 : ((47 - br.ISR_PERCENTAGE) * R - 100 * b) * (57 - br.ISR_PERCENTAGE)
        = 50 * b * ((47 - br.ISR_PERCENTAGE) - (57 - br.ISR_PERCENTAGE)) := by
      linear_combination hpoly
    have h3 : ((47 - br.ISR_PERCENTAGE) * R - 100 * b)
        * (57 - br.ISR_PERCENTAGE) < 0 := by
      rw [h2]
      have h4 : 50 * b * ((47 - br.ISR_PERCENTAGE) - (57 - br.ISR_PERCENTAGE))
          = -(50 * b * ((57 - br.ISR_PERCENTAGE) - (47 - br.ISR_PERCENTAGE))) := by
        ring
      rw [h4, neg_neg_iff_pos]
      exact mul_pos (by linarith) (by linarith)
    by_contra hcon
    push_neg at hcon
    nlinarith [h3, hu, hcon]
  constructor
  · rw [div_mul_eq_mul_div, lt_div_iff hR]
    linarith [key1]
  · rw [div_mul_eq_mul_div, div_lt_iff hR]
    linarith [key2]

/-- On a configuration with nonzero denominators and nonzero competitive
revenue, the pricing call succeeds and its `margin_percentage` field is
the rounded realized margin. -/
theorem calculate_optimal_price_margin (br : BusinessRules) (b : ℚ)
    (hD1 : (1:ℚ) - (13 + br.ISR_PERCENTAGE) / 100 ≠ 0)
    (hDa : (1:ℚ) - (13 + br.ISR_PERCENTAGE + br.MIN_MARGIN_PERCENTAGE) / 100 ≠ 0)
    (hDd : (1:ℚ) - (13 + br.ISR_PERCENTAGE + br.IDEAL_MARGIN_PERCENTAGE) / 100 ≠ 0)
    (hT : (1:ℚ) + br.IVA_PERCENTAGE / 100 ≠ 0)
    (hrev : (b / (1 - (13 + br.ISR_PERCENTAGE + br.MIN_MARGIN_PERCENTAGE) / 100)
        * (1 + br.IVA_PERCENTAGE / 100)
      + b / (1 - (13 + br.ISR_PERCENTAGE + br.IDEAL_MARGIN_PERCENTAGE) / 100)
        * (1 + br.IVA_PERCENTAGE / 100)) / 2 / (1 + br.IVA_PERCENTAGE / 100) ≠ 0) :
    (calculate_optimal_price br b).map (fun r => r.margin_percentage)
      = some (round2 (realized_margin br b)) := by
  simp only [calculate_optimal_price, realized_margin, min_margin_price_with_iva,
    ideal_margin_price_with_iva]
  rw [if_neg hD1, if_neg hDa, if_neg hDd, if_neg hT, if_neg hrev]
  rfl

/-- C7 (amended): for every positive base cost (margins 30/40,
nonnegative IVA and ISR with ISR below 47), the tax-inclusive
minimum-margin price is strictly below the ideal-margin price
(`optimal_price`); the price the same formula assigns to a 100% margin is
negative, so the ladder is *not* below it; and the pricing result's
recomputed `margin_percentage` at the competitive price lies between the
global minimum margin 30 and the ideal margin 40. -/
theorem pricing_ladder (br : BusinessRules) (b : ℚ)
    (hb : 0 < b) (hiva : 0 ≤ br.IVA_PERCENTAGE) (hisr : 0 ≤ br.ISR_PERCENTAGE)
    (hmin : br.MIN_MARGIN_PERCENTAGE = 30)
    (hideal : br.IDEAL_MARGIN_PERCENTAGE = 40)
    (hisr47 : br.ISR_PERCENTAGE < 47) :
    min_margin_price_with_iva br b < ideal_margin_price_with_iva br b ∧
    price_for_margin br b 100 < 0 ∧
    (calculate_optimal_price br b).map (fun r => r.margin_percentage)
      = some (round2 (realized_margin br b)) ∧
    30 ≤ round2 (realized_margin br b) ∧ round2 (realized_margin br b) ≤ 40 := by
  have hDa : (0:ℚ) < 1 - (13 + br.ISR_PERCENTAGE + 30) / 100 := by linarith
  have hDd : (0:ℚ) < 1 - (13 + br.ISR_PERCENTAGE + 40) / 100 := by linarith
  have hT : (0:ℚ) < 1 + br.IVA_PERCENTAGE / 100 := by linarith
  have hD1 : (0:ℚ) < 1 - (13 + br.ISR_PERCENTAGE) / 100 := by linarith
  have hk : (0:ℚ) < (1 / (1 - (13 + br.ISR_PERCENTAGE + 30) / 100)
      + 1 / (1 - (13 + br.ISR_PERCENTAGE + 40) / 100)) / 2 := by positivity
  have hbounds := realized_margin_bounds br b hb hiva hisr hmin hideal hisr47
  refine ⟨?_, ?_, ?_, ?_, ?_⟩
  · unfold min_margin_price_with_iva ideal_margin_price_with_iva
    rw [hmin, hideal]
    have hdiv : b / (1 - (13 + br.ISR_PERCENTAGE + 30) / 100)
        < b / (1 - (13 + br.ISR_PERCENTAGE + 40) / 100) :=
      div_lt_div_of_pos_left hb hDd (by linarith)
    exact mul_lt_mul_of_pos_right hdiv hT
  · unfold price_for_margin
    have hneg : 1 - (13 + br.ISR_PERCENTAGE + 100) / 100 < 0 := by linarith
    exact mul_neg_of_neg_of_pos (div_neg_of_pos_of_neg hb hneg) hT
  · apply calculate_optimal_price_margin br b hD1.ne'
    · rw [hmin]; exact hDa.ne'
    · rw [hideal]; exact hDd.ne'
    · exact hT.ne'
    · rw [hmin, hideal, revenue_without_iva_eq br b hT]
      exact (mul_pos hb hk).ne'
  · calc (30:ℚ) = round2 30 := round2_30.symm
      _ ≤ round2 (realized_margin br b) := round2_mono (le_of_lt hbounds.1)
  · calc round2 (realized_margin br b) ≤ round2 40 := round2_mono (le_of_lt hbounds.2)
      _ = 40 := round2_40

/-- C7 counterexample (to the claim as stated): under the representative
constants the price the pricing formula implies for a 100% margin is
negative, so the ladder values are *not* below it. -/
theorem pricing_ladder_counterexample :
    price_for_margin defaultRules 100 100 < 0 ∧
    ¬ min_margin_price_with_iva defaultRules 100 < price_for_margin defaultRules 100 100 ∧
    ¬ ideal_margin_price_with_iva defaultRules 100 < price_for_margin defaultRules 100 100 := by
  refine ⟨?_, ?_, ?_⟩ <;>
    · simp only [price_for_margin, min_margin_price_with_iva,
        ideal_margin_price_with_iva, defaultRules]
      norm_num

/-- Witness for C7's amended theorem at base cost 100 under the
representative constants. -/
theorem pricing_ladder_witness :
    (0:ℚ) < 100 ∧
    min_margin_price_with_iva defaultRules 100 < ideal_margin_price_with_iva defaultRules 100 ∧
    30 ≤ round2 (realized_margin defaultRules 100) ∧
    round2 (realized_margin defaultRules 100) ≤ 40 := by
  have h := pricing_ladder defaultRules 100 (by norm_num)
    (by norm_num [defaultRules]) (by norm_num [defaultRules])
    (by norm_num [defaultRules]) (by norm_num [defaultRules])
    (by norm_num [defaultRules])
  exact ⟨by norm_num, h.1, h.2.2.2.1, h.2.2.2.2⟩

/-- The margin component always lies in `[0, 40]` when the minimum margin
is below the ideal margin. -/
theorem margin_component_bounds (br : BusinessRules) (m : ℚ)
    (hlt : br.MIN_MARGIN_PERCENTAGE < br.IDEAL_MARGIN_PERCENTAGE) :
    0 ≤ margin_component br m ∧ margin_component br m ≤ 40 := by
  unfold margin_component
  split_ifs with h1 h2
  · exact ⟨by norm_num, le_refl _⟩
  · have hd : (0:ℚ) < br.IDEAL_MARGIN_PERCENTAGE - br.MIN_MARGIN_PERCENTAGE := by
      linarith
    have hr0 : (0:ℚ) ≤ (m - br.MIN_MARGIN_PERCENTAGE)
        / (br.IDEAL_MARGIN_PERCENTAGE - br.MIN_MARGIN_PERCENTAGE) :=
      div_nonneg (by linarith) (le_of_lt hd)
    have hr1 : (m - br.MIN_MARGIN_PERCENTAGE)
        / (br.IDEAL_MARGIN_PERCENTAGE - br.MIN_MARGIN_PERCENTAGE) < 1 := by
      rw [div_lt_one hd]
      push_neg at h1
      linarith
    have hv0 : (0:ℚ) ≤ 20 + 20 * ((m - br.MIN_MARGIN_PERCENTAGE)
        / (br.IDEAL_MARGIN_PERCENTAGE - br.MIN_MARGIN_PERCENTAGE)) := by linarith
    simp only [pyInt, if_pos hv0]
    constructor
    · exact Int.floor_nonneg.2 hv0
    · have hlt40 : (⌊20 + 20 * ((m - br.MIN_MARGIN_PERCENTAGE)
          / (br.IDEAL_MARGIN_PERCENTAGE - br.MIN_MARGIN_PERCENTAGE))⌋ : ℚ) < 40 :=
        lt_of_le_of_lt (Int.floor_le _) (by linarith)
      exact le_of_lt (by exact_mod_cast hlt40)
  · exact ⟨le_refl _, by norm_num⟩

/-- The margin component is monotone non-decreasing in the margin. -/
theorem margin_component_mono (br : BusinessRules) (m₁ m₂ : ℚ)
    (hlt : br.MIN_MARGIN_PERCENTAGE < br.IDEAL_MARGIN_PERCENTAGE)
    (hm : m₁ ≤ m₂) :
    margin_component br m₁ ≤ margin_component br m₂ := by
  have hd : (0:ℚ) < br.IDEAL_MARGIN_PERCENTAGE - br.MIN_MARGIN_PERCENTAGE := by
    linarith
  by_cases c2 : br.IDEAL_MARGIN_PERCENTAGE ≤ m₂
  · have e2 : margin_component br m₂ = 40 := by
      unfold margin_component
      rw [if_pos c2]
    rw [e2]
    exact (margin_component_bounds br m₁ hlt).2
  · have c1 : ¬ br.IDEAL_MARGIN_PERCENTAGE ≤ m₁ := fun h => c2 (le_trans h hm)
    by_cases b1 : br.MIN_MARGIN_PERCENTAGE ≤ m₁
    · have b2 : br.MIN_MARGIN_PERCENTAGE ≤ m₂ := le_trans b1 hm
      have e1 : margin_component br m₁
          = pyInt (20 + 20 * ((m₁ - br.MIN_MARGIN_PERCENTAGE)
            / (br.IDEAL_MARGIN_PERCENTAGE - br.MIN_MARGIN_PERCENTAGE))) := by
        unfold margin_component
        rw [if_neg c1, if_pos b1]
      have e2 : margin_component br m₂
          = pyInt (20 + 20 * ((m₂ - br.MIN_MARGIN_PERCENTAGE)
            / (br.IDEAL_MARGIN_PERCENTAGE - br.MIN_MARGIN_PERCENTAGE))) := by
        unfold margin_component
        rw [if_neg c2, if_pos b2]
      rw [e1, e2]
      have hr : (m₁ - br.MIN_MARGIN_PERCENTAGE)
            / (br.IDEAL_MARGIN_PERCENTAGE - br.MIN_MARGIN_PERCENTAGE)
          ≤ (m₂ - br.MIN_MARGIN_PERCENTAGE)
            / (br.IDEAL_MARGIN_PERCENTAGE - br.MIN_MARGIN_PERCENTAGE) :=
        (div_le_div_right hd).2 (by linarith)
      have hv₁ : (0:ℚ) ≤ 20 + 20 * ((m₁ - br.MIN_MARGIN_PERCENTAGE)
          / (br.IDEAL_MARGIN_PERCENTAGE - br.MIN_MARGIN_PERCENTAGE)) := by
        have : (0:ℚ) ≤ (m₁ - br.MIN_MARGIN_PERCENTAGE)
            / (br.IDEAL_MARGIN_PERCENTAGE - br.MIN_MARGIN_PERCENTAGE) :=
          div_nonneg (by linarith) (le_of_lt hd)
        linarith
      have hv₂ : (0:ℚ) ≤ 20 + 20 * ((m₂ - br.MIN_MARGIN_PERCENTAGE)
          / (br.IDEAL_MARGIN_PERCENTAGE - br.MIN_MARGIN_PERCENTAGE)) := by
        have : (0:ℚ) ≤ (m₂ - br.MIN_MARGIN_PERCENTAGE)
            / (br.IDEAL_MARGIN_PERCENTAGE - br.MIN_MARGIN_PERCENTAGE) :=
          div_nonneg (by linarith) (le_of_lt hd)
        linarith
      simp only [pyInt, if_pos hv₁, if_pos hv₂]
      exact Int.floor_mono (by linarith)
    · have e1 : margin_component br m₁ = 0 := by
        unfold margin_component
        rw [if_neg c1, if_neg b1]
      rw [e1]
      exact (margin_component_bounds br m₂ hlt).1

/-- The price component always lies in `[5, 20]`. -/
theorem price_component_bounds (competitive_price optimal_price : ℚ) :
    5 ≤ price_component competitive_price optimal_price ∧
    price_component competitive_price optimal_price ≤ 20 := by
  simp only [price_component]
  split_ifs <;> norm_num

/-- C8: holding the competition level (a hard-coded constant) and the
price-gap inputs fixed, the total score of `calculate_product_score` is
monotone non-decreasing in the margin input, and for every margin input
the total score lies in `[0, 100]`. -/
theorem calculate_product_score_monotone_bounded (br : BusinessRules)
    (m₁ m₂ competitive_price optimal_price : ℚ)
    (hlt : br.MIN_MARGIN_PERCENTAGE < br.IDEAL_MARGIN_PERCENTAGE)
    (hm : m₁ ≤ m₂) :
    (calculate_product_score br m₁ competitive_price optimal_price).total_score
      ≤ (calculate_product_score br m₂ competitive_price optimal_price).total_score ∧
    ∀ m : ℚ,
      0 ≤ (calculate_product_score br m competitive_price optimal_price).total_score ∧
      (calculate_product_score br m competitive_price optimal_price).total_score
        ≤ 100 := by
  have hg : ∀ m : ℚ, ¬ (¬ br.IDEAL_MARGIN_PERCENTAGE ≤ m ∧
      br.MIN_MARGIN_PERCENTAGE ≤ m ∧
      br.IDEAL_MARGIN_PERCENTAGE - br.MIN_MARGIN_PERCENTAGE = 0) := by
    rintro m ⟨-, -, h⟩
    linarith
  by_cases hop : 0 < competitive_price ∧ optimal_price = 0
  · refine ⟨?_, fun m => ?_⟩ <;>
      simp [calculate_product_score, if_neg (hg _), if_pos hop, scoreError]
  · refine ⟨?_, fun m => ?_⟩
    · simp only [calculate_product_score, if_neg (hg m₁), if_neg (hg m₂), if_neg hop]
      have := margin_component_mono br m₁ m₂ hlt hm
      linarith
    · simp only [calculate_product_score, if_neg (hg m), if_neg hop]
      have h1 := margin_component_bounds br m hlt
      have h2 := price_component_bounds competitive_price optimal_price
      exact ⟨by linarith, by linarith⟩

/-- Witness for C8 at margins 32 ≤ 35 with the representative constants
and the concrete price pair (100, 103). -/
theorem calculate_product_score_monotone_bounded_witness :
    defaultRules.MIN_MARGIN_PERCENTAGE < defaultRules.IDEAL_MARGIN_PERCENTAGE ∧
    (32:ℚ) ≤ 35 ∧
    (calculate_product_score defaultRules 32 100 103).total_score
      ≤ (calculate_product_score defaultRules 35 100 103).total_score ∧
    0 ≤ (calculate_product_score defaultRules 32 100 103).total_score ∧
    (calculate_product_score defaultRules 32 100 103).total_score ≤ 100 := by
  have h1 : defaultRules.MIN_MARGIN_PERCENTAGE
      < defaultRules.IDEAL_MARGIN_PERCENTAGE := by norm_num [defaultRules]
  have h2 : (32:ℚ) ≤ 35 := by norm_num
  have h := calculate_product_score_monotone_bounded defaultRules 32 35 100 103 h1 h2
  exact ⟨h1, h2, h.1, (h.2 32).1, (h.2 32).2⟩

/-- C9 (amended): on every successful analysis, the returned
`free_shipping_percentage` is the count of free-shipping items among the
first 10 results divided by the size of the full result set, times 100
(rounded to two decimals), and `should_offer_free_shipping` is true
exactly when that unrounded ratio exceeds 70. -/
theorem analyze_competition_free_shipping (items : List MLItem)
    (s : CompetitionSummary) (h : analyze_competition items = some s) :
    s.free_shipping_percentage
      = round2 ((((items.take 10).filter (·.free_shipping)).length : ℚ)
          / (items.length : ℚ) * 100) ∧
    (s.should_offer_free_shipping = true ↔
      70 < (((items.take 10).filter (·.free_shipping)).length : ℚ)
          / (items.length : ℚ) * 100) := by
  by_cases hne : items = []
  · rw [hne] at h
    simp [analyze_competition] at h
  · simp only [analyze_competition, if_neg hne] at h
    by_cases hp : List.map (fun i => i.price)
        (List.filter (fun i => decide (0 < i.price)) (items.take 10)) = []
    · rw [if_pos hp] at h
      exact absurd h (by simp)
    · rw [if_neg hp] at h
      injection h with h'
      subst h'
      exact ⟨rfl, by simp⟩

/-- C9 counterexample: with 20 results all offering free shipping, the
code counts free shipping only among the first 10 but divides by all 20:
the returned percentage is 50 and the flag is false, while the fraction
of the full result set that offers free shipping is 100% > 70%. -/
theorem analyze_competition_free_shipping_counterexample :
    (analyze_competition itemsC9).map (fun s => s.free_shipping_percentage)
      = some 50 ∧
    (analyze_competition itemsC9).map (fun s => s.should_offer_free_shipping)
      = some false ∧
    free_shipping_percentage_spec itemsC9 = 100 ∧ (70:ℚ) < 100 := by
  refine ⟨?_, ?_, ?_, by norm_num⟩
  · simp only [itemsC9, analyze_competition, List.replicate, listMean, listMin,
      listMax, sampleVariance, round2]
    norm_num [round_eq, List.filter, List.take]
    exact ⟨_, ⟨by simp, by simp, rfl⟩, rfl⟩
  · simp only [itemsC9, analyze_competition, List.replicate, listMean, listMin,
      listMax, sampleVariance, round2]
    norm_num [round_eq, List.filter, List.take]
    exact ⟨_, ⟨by simp, by simp, rfl⟩, rfl⟩
  · simp only [itemsC9, free_shipping_percentage_spec, List.replicate]
    norm_num [List.filter]

/-- Witness for C9's amended theorem at the concrete 20-item result set. -/
theorem analyze_competition_free_shipping_witness :
    analyze_competition itemsC9 = some summaryC9 ∧
    summaryC9.free_shipping_percentage
      = round2 ((((itemsC9.take 10).filter (·.free_shipping)).length : ℚ)
          / (itemsC9.length : ℚ) * 100) ∧
    (summaryC9.should_offer_free_shipping = true ↔
      70 < (((itemsC9.take 10).filter (·.free_shipping)).length : ℚ)
          / (itemsC9.length : ℚ) * 100) := by
  have h : analyze_competition itemsC9 = some summaryC9 := by
    simp only [itemsC9, summaryC9, analyze_competition, List.replicate, listMean,
      listMin, listMax, sampleVariance, round2]
    norm_num [round_eq, List.filter, List.take]
    exact ⟨by simp, by simp⟩
  have hc := analyze_competition_free_shipping itemsC9 summaryC9 h
  exact ⟨h, hc.1, hc.2⟩
